import Mathlib

/-!
Verification of the device discovery and adapter layer of the
konica-minolta-printer-middleware repository.

Strings are shallowly embedded as lists of character codes (`List Nat`,
each entry a Unicode code point); all source texts involved are ASCII.
Python dictionaries holding probe findings are embedded as structures
whose fields mirror the keys the code reads, with the `dict.get` default
applied where the source applies one.
-/

namespace KM

/-- Character codes of a string literal (the embedding of Python `str`). -/
def str (s : String) : List Nat := s.data.map Char.toNat

/-- Embeds `str.upper` on one ASCII character code (non-letters are unchanged). -/
def upN (n : Nat) : Nat := if 97 ≤ n ∧ n ≤ 122 then n - 32 else n

/-- Embeds `str.lower` on one ASCII character code (non-letters are unchanged). -/
def lowN (n : Nat) : Nat := if 65 ≤ n ∧ n ≤ 90 then n + 32 else n

/-- Embeds `text.upper()`. -/
def upStr (s : List Nat) : List Nat := s.map upN

/-- Embeds `text.lower()`. -/
def lowStr (s : List Nat) : List Nat := s.map lowN

/-- Python `needle in hay` on strings: contiguous-substring containment. -/
def containsSub (needle hay : List Nat) : Bool :=
  match hay with
  | [] => needle = []
  | _ :: t => needle.isPrefixOf hay || containsSub needle t

/-- Python `\s` character class (`[ \t\n\r\x0b\x0c]`). -/
def isPySpace (n : Nat) : Bool := n = 32 || n = 9 || n = 10 || n = 13 || n = 11 || n = 12

/-- Python `\d` character class (ASCII digits). -/
def isDigitN (n : Nat) : Bool := 48 ≤ n && n ≤ 57

/-- Embeds `[a-zA-Z]` (also what `[A-Z]` matches under `re.IGNORECASE`). -/
def isAlphaN (n : Nat) : Bool := (97 ≤ n && n ≤ 122) || (65 ≤ n && n ≤ 90)

/-- Embeds `NetworkDiscovery.KM_IDENTIFIERS` (discovery.py lines 40-52). -/
def KM_IDENTIFIERS : List (List Nat) :=
  [str "KONICA MINOLTA", str "bizhub", str "magicolor", str "pagepro",
   str "Fiery", str "EFI", str "Fiery ES", str "Fiery E100",
   str "IC-418", str "60-55C-KM"]

/-- A probe-result dictionary as read by `_is_konica_minolta` and
`_extract_model`: the `description` key (SNMP) and the `content_snippet`
key (HTTP), each defaulted to the empty string by `info.get(..., '')`.
An empty dict (which the code treats as falsy) behaves identically to a
dict with both keys empty, since every identifier is non-empty. -/
structure InfoDict where
  description : List Nat := []
  content_snippet : List Nat := []
deriving DecidableEq, Repr

/-- The dict produced by `SNMPClient._parse_system_info` (snmp_client.py
lines 111-124): a `description` key that may be absent (the `uptime` and
`name` keys are read by no claim); a `content_snippet` key never occurs
in it. -/
structure SnmpInfo where
  description : Option (List Nat) := none
deriving DecidableEq, Repr

/-- The dict produced by `_http_discovery` (discovery.py lines 216-221):
a `content_snippet` key always present (`content[:500]`); a
`description` key never occurs in it. -/
structure HttpInfo where
  content_snippet : List Nat := []
deriving DecidableEq, Repr

/-- The view of an SNMP dict under the `info.get(..., '')` defaults. -/
def infodict_of_snmp (si : SnmpInfo) : InfoDict :=
  { description := si.description.getD [] }

/-- The view of an HTTP dict under the `info.get(..., '')` defaults. -/
def infodict_of_http (hi : HttpInfo) : InfoDict :=
  { content_snippet := hi.content_snippet }

/-- Embeds `NetworkDiscovery._is_konica_minolta` (discovery.py lines 257-274):
case-insensitive scan of the SNMP description and then the HTTP content
snippet against the fixed identifier list. -/
def is_konica_minolta (info : InfoDict) : Bool :=
  KM_IDENTIFIERS.any (fun idt => containsSub (upStr idt) (upStr info.description)) ||
  KM_IDENTIFIERS.any (fun idt => containsSub (upStr idt) (upStr info.content_snippet))

/-- One token of a model-extraction regular expression.  The eleven
patterns of `_extract_model` are all sequences of case-insensitive
literals, `\s+`, and a single capture group of one of three shapes:
`([C]?\d+[a-zA-Z]*)`, `(\d+)`, or `([A-Z]+\d+)` (under `re.IGNORECASE`,
`[C]` also matches `c` and `[A-Z]` matches any letter). -/
inductive Tok where
  | lit : List Nat → Tok
  | ws : Tok
  | gOptCDigAlpha : Tok
  | gDigits : Tok
  | gUpperDigits : Tok
deriving DecidableEq, Repr

/-- Consume a case-insensitive literal from the front of the text. -/
def stripLitCI : List Nat → List Nat → Option (List Nat)
  | [], cs => some cs
  | _ :: _, [] => none
  | l :: ls, c :: cs => if lowN l = lowN c then stripLitCI ls cs else none

/-- Run a token sequence at the current position, returning the capture of
the (unique) group on success.  Each greedy quantifier is resolved by
maximal munch; in every pattern of `model_patterns` the character class of
a quantifier is disjoint from the class of the following token, so maximal
munch coincides with the backtracking semantics of Python `re`.  `[C]?`
tries the one-character branch first, as Python's greedy `?` does. -/
def runToks : List Tok → List Nat → Option (List Nat) → Option (List Nat)
  | [], _, cap => some (cap.getD [])
  | .lit s :: ts, cs, cap =>
      match stripLitCI s cs with
      | some r => runToks ts r cap
      | none => none
  | .ws :: ts, cs, cap =>
      let sp := cs.takeWhile isPySpace
      if sp.isEmpty then none else runToks ts (cs.drop sp.length) cap
  | .gDigits :: ts, cs, _cap =>
      let ds := cs.takeWhile isDigitN
      if ds.isEmpty then none else runToks ts (cs.drop ds.length) (some ds)
  | .gUpperDigits :: ts, cs, _cap =>
      let ls := cs.takeWhile isAlphaN
      if ls.isEmpty then none
      else
        let rest := cs.drop ls.length
        let ds := rest.takeWhile isDigitN
        if ds.isEmpty then none else runToks ts (rest.drop ds.length) (some (ls ++ ds))
  | .gOptCDigAlpha :: ts, cs, _cap =>
      let withC : Option (List Nat) :=
        match cs with
        | c :: cs1 =>
            if c = 67 ∨ c = 99 then
              let ds := cs1.takeWhile isDigitN
              if ds.isEmpty then none
              else
                let rest := cs1.drop ds.length
                let al := rest.takeWhile isAlphaN
                runToks ts (rest.drop al.length) (some (c :: (ds ++ al)))
            else none
        | [] => none
      match withC with
      | some r => some r
      | none =>
          let ds := cs.takeWhile isDigitN
          if ds.isEmpty then none
          else
            let rest := cs.drop ds.length
            let al := rest.takeWhile isAlphaN
            runToks ts (rest.drop al.length) (some (ds ++ al))

/-- Embeds `re.search`: try each start position from the left; the first position
admitting a match wins. -/
def searchToks (ts : List Tok) : List Nat → Option (List Nat)
  | [] => runToks ts [] none
  | c :: rest =>
      match runToks ts (c :: rest) none with
      | some g => some g
      | none => searchToks ts rest

/-- Pattern `bizhub\s+([C]?\d+[a-zA-Z]*)`. -/
def patBizhub : List Tok := [.lit (str "bizhub"), .ws, .gOptCDigAlpha]

/-- Pattern `magicolor\s+(\d+)`. -/
def patMagicolor : List Tok := [.lit (str "magicolor"), .ws, .gDigits]

/-- Pattern `pagepro\s+(\d+)`. -/
def patPagepro : List Tok := [.lit (str "pagepro"), .ws, .gDigits]

/-- Pattern `AccurioPrint\s+(\d+)`. -/
def patAccurio : List Tok := [.lit (str "AccurioPrint"), .ws, .gDigits]

/-- Pattern `KONICA MINOLTA\s+AccurioPrint\s+(\d+)`. -/
def patKMAccurio : List Tok :=
  [.lit (str "KONICA MINOLTA"), .ws, .lit (str "AccurioPrint"), .ws, .gDigits]

/-- Pattern `KONICA MINOLTA\s+bizhub\s+([C]?\d+[a-zA-Z]*)`. -/
def patKMBizhub : List Tok :=
  [.lit (str "KONICA MINOLTA"), .ws, .lit (str "bizhub"), .ws, .gOptCDigAlpha]

/-- The generic vendor-name pattern `KONICA MINOLTA\s+([C]?\d+[a-zA-Z]*)`. -/
def patKMGeneric : List Tok := [.lit (str "KONICA MINOLTA"), .ws, .gOptCDigAlpha]

/-- Controller pattern `Fiery ES IC-(\d+)`. -/
def patFieryIC : List Tok := [.lit (str "Fiery ES IC-"), .gDigits]

/-- Controller pattern `Fiery E(\d+)\s+60-55C-KM`. -/
def patFieryE100 : List Tok := [.lit (str "Fiery E"), .gDigits, .ws, .lit (str "60-55C-KM")]

/-- The general controller pattern `Fiery\s+([A-Z]+\d+)`. -/
def patFieryGeneral : List Tok := [.lit (str "Fiery"), .ws, .gUpperDigits]

/-- The ordered pattern table of `_extract_model` (discovery.py lines
281-293), each with the flag `pattern.startswith('Fiery')` used by the
translation step. -/
def model_patterns : List (List Tok × Bool) :=
  [(patBizhub, false),
   (patMagicolor, false),
   (patPagepro, false),
   (patAccurio, false),
   (patKMAccurio, false),
   (patKMBizhub, false),
   (patKMGeneric, false),
   (patFieryIC, true),
   (patFieryE100, true),
   (patFieryGeneral, true)]

/-- The body of `_extract_model`'s pattern loop (discovery.py lines
295-314): on the first matching pattern, the Fiery-code-to-printer-model
translation is applied (the `IC-418` and `E100 60-55C-KM` membership tests
are case-sensitive, as in the source), then the Fiery-prefixed-pattern
heuristics, and otherwise the captured group is returned. -/
def extract_model_go (description : List Nat) : List (List Tok × Bool) → Option (List Nat)
  | [] => none
  | (ts, fieryPat) :: rest =>
      match searchToks ts description with
      | some model =>
          if containsSub (str "IC-418") description then some (str "C759")
          else if containsSub (str "E100") description && containsSub (str "60-55C-KM") description then
            some (str "C754e")
          else if fieryPat then
            if containsSub (str "418") model then some (str "C759")
            else if containsSub (str "100") model then some (str "C754e")
            else some (str "Fiery-" ++ model)
          else some model
      | none => extract_model_go description rest

/-- Embeds `NetworkDiscovery._extract_model` (discovery.py lines 276-316). -/
def extract_model (description : List Nat) : Option (List Nat) :=
  extract_model_go description model_patterns

/-- Embeds `DeviceType` (models/device.py lines 9-14). -/
inductive DeviceType where
  | C654E | C759 | C754E | KM2100
deriving DecidableEq, Repr

/-- The string value of a `DeviceType` member (pydantic stores it via
`use_enum_values`). -/
def DeviceType.value : DeviceType → List Nat
  | .C654E => str "C654e"
  | .C759 => str "C759"
  | .C754E => str "C754e"
  | .KM2100 => str "2100"

/-- Embeds `NetworkDiscovery._determine_device_type` (discovery.py lines
318-340).  `if not model` also catches the empty string.  The final
`'2100'` branch of the source's fallback is unreachable (the earlier
branch already tested it) but is kept verbatim. -/
def determine_device_type (model : Option (List Nat)) : Option DeviceType :=
  match model with
  | none => none
  | some m =>
      if m = [] then none
      else
        let mu := upStr m
        if containsSub (str "C654E") mu then some .C654E
        else if containsSub (str "C759") mu then some .C759
        else if containsSub (str "C754E") mu then some .C754E
        else if containsSub (str "2100") mu then some .KM2100
        else if (match mu with | c :: _ => c = 67 | [] => false) &&
                (containsSub (str "654") mu || containsSub (str "754") mu ||
                 containsSub (str "759") mu) then some .C654E
        else if containsSub (str "2100") mu then some .KM2100
        else none

/-- Embeds `NetworkDiscovery._determine_fiery_device_type` (discovery.py lines
241-255).  `fiery_info['model']` is initialised to `None` by
`detect_fiery`; when it is still `None`, `fiery_info.get('model', '')`
returns `None` (the key is present) and `.upper()` raises
`AttributeError`, which the embedding signals with `Except.error`. -/
def determine_fiery_device_type (fieryModel : Option (List Nat)) : Except Unit DeviceType :=
  match fieryModel with
  | none => .error ()
  | some m =>
      let mu := upStr m
      .ok (if containsSub (str "C759") mu then .C759
           else if containsSub (str "C754") mu then .C754E
           else if containsSub (str "C654") mu then .C654E
           else .C759)

/-- One HTTP response (status code and body text) for an endpoint probe;
`none` stands for a transport failure, which the per-endpoint `try` of
the source swallows. -/
structure HttpResp where
  status : Nat
  body : List Nat
deriving DecidableEq, Repr

/-- The responses of the five endpoints probed by
`FieryClient.detect_fiery` (fiery_client.py lines 59-65). -/
structure FieryEndpoints where
  root : Option HttpResp := none
  wsiRoot : Option HttpResp := none
  statusEp : Option HttpResp := none
  infoEp : Option HttpResp := none
  commandEp : Option HttpResp := none
deriving DecidableEq, Repr

/-- One `(endpoint, indicator)` check of the `detect_fiery` loop
(fiery_client.py lines 67-76): accepted status and case-insensitive
containment of the indicator in the body. -/
def indicator_hit (r : Option HttpResp) (ind : List Nat) : Bool :=
  match r with
  | none => false
  | some resp =>
      (resp.status == 200 || resp.status == 301 || resp.status == 302) &&
      containsSub (lowStr ind) (lowStr resp.body)

/-- The `is_fiery` flag computed by `FieryClient.detect_fiery`
(fiery_client.py lines 43-88): any of the five indicator checks fires. -/
def detect_fiery_is_fiery (eps : FieryEndpoints) : Bool :=
  indicator_hit eps.root (str "Fiery") ||
  indicator_hit eps.wsiRoot (str "Fiery Web Services") ||
  indicator_hit eps.statusEp (str "EFI") ||
  indicator_hit eps.infoEp (str "Fiery") ||
  indicator_hit eps.commandEp (str "Command")

/-- The detection record consumed by `_scan_device`: the `is_fiery` flag
and the `model` field.  `model` is initialised to `None` and possibly
filled by `_get_fiery_info` (fiery_client.py lines 90-136), whose
XML/JSON/HTML payload parsing over network responses is beyond the
embedding; its outcome enters as the `infoModel` parameter and is
universally quantified in the theorems.  `_get_fiery_info` only runs when
`is_fiery` holds, so the field stays `None` otherwise. -/
structure FieryDetection where
  is_fiery : Bool
  model : Option (List Nat)
deriving DecidableEq, Repr

/-- Embeds `FieryClient.detect_fiery` as used by discovery. -/
def detect_fiery (eps : FieryEndpoints) (infoModel : Option (List Nat)) : FieryDetection :=
  let isF := detect_fiery_is_fiery eps
  { is_fiery := isF, model := if isF then infoModel else none }

/-- Embeds `NetworkDiscovery.COMMON_PASSWORDS["by_model"]` (discovery.py lines
31-36), in dict insertion order. -/
def by_model_passwords : List (List Nat × List (List Nat)) :=
  [(str "2100", [str "12345678"]),
   (str "754e", [str "12345678"]),
   (str "C654", [str "1234567812345678"]),
   (str "C759", [str "1234567812345678"])]

/-- Embeds `NetworkDiscovery.COMMON_PASSWORDS["default"]` (discovery.py lines
25-30). -/
def default_passwords : List (List Nat) :=
  [str "12345678", str "1234567812345678", str "admin", str ""]

/-- Embeds `list(dict.fromkeys(xs))`: de-duplicate keeping the first occurrence
of each element. -/
def dedupGo (seen : List (List Nat)) : List (List Nat) → List (List Nat)
  | [] => []
  | x :: xs => if seen.contains x then dedupGo seen xs else x :: dedupGo (x :: seen) xs

/-- Embeds `list(dict.fromkeys(xs))` keeps the first occurrence of each key. -/
def dedupKeepFirst (l : List (List Nat)) : List (List Nat) := dedupGo [] l

/-- The candidate list built by `_discover_admin_password` (discovery.py
lines 344-356): passwords of every model key matching the inferred model
case-insensitively (the empty model is falsy and skips the step), then
the defaults, de-duplicated preserving first-seen order. -/
def password_candidates (model : Option (List Nat)) : List (List Nat) :=
  let modelSpecific :=
    match model with
    | none => []
    | some m =>
        if m = [] then []
        else (by_model_passwords.filter
               (fun kv => containsSub (upStr kv.1) (upStr m))).foldr
               (fun kv acc => kv.2 ++ acc) []
  dedupKeepFirst (modelSpecific ++ default_passwords)

/-- The trial loop of `_discover_admin_password` (discovery.py lines
358-366): try candidates in order, stop at the first accepted one; a
candidate whose test raises is logged and counts as a failure.  Returns
the discovered password (or `none`) and the number of attempts made. -/
def try_passwords (accepts : List Nat → Bool) : List (List Nat) → Option (List Nat) × Nat
  | [] => (none, 0)
  | p :: ps =>
      if accepts p then (some p, 1)
      else
        let r := try_passwords accepts ps
        (r.1, r.2 + 1)

/-- Embeds `NetworkDiscovery._discover_admin_password` (discovery.py lines
342-366); `accepts` is the outcome of `_test_admin_password` per
candidate. -/
def discover_admin_password (model : Option (List Nat)) (accepts : List Nat → Bool) :
    Option (List Nat) :=
  (try_passwords accepts (password_candidates model)).1

/-- The per-address record built by `_scan_device` (discovery.py lines
117-127).  The `snmp_info`, `fiery_info` and `capabilities` entries are
not read by any claim and are omitted; `fiery_controller` mirrors the key
added at line 158 (absent = `false`). -/
structure DeviceInfoRec where
  ip_address : List Nat
  is_km_device : Bool := false
  reachable : Bool := false
  device_type : Option DeviceType := none
  model : Option (List Nat) := none
  http_accessible : Bool := false
  admin_password : Option (List Nat) := none
  fiery_controller : Bool := false
deriving DecidableEq, Repr

/-- Everything one address answers during a scan: the ping outcome, the
SNMP dict (or `none` on failure), the HTTP dict (or `none` — a present
dict means some candidate path answered 200/301/302), the Fiery endpoint
responses, the abstracted `_get_fiery_info` model outcome, and the
per-candidate admin-password acceptance oracle (`_test_admin_password`,
whose transport errors surface as `false`). -/
structure ScanInput where
  ping : Bool := false
  snmp : Option SnmpInfo := none
  http : Option HttpInfo := none
  fieryEps : FieryEndpoints := {}
  fieryInfoModel : Option (List Nat) := none
  accepts : List Nat → Bool := fun _ => false

/-- Lines 117-137 of `_scan_device`: the initial record and the ping
step (a failed ping does not abort the pipeline). -/
def scan_step_init (ip : List Nat) (inp : ScanInput) : DeviceInfoRec :=
  { ip_address := ip, reachable := inp.ping }

/-- Lines 138-144 of `_scan_device`: the SNMP branch sets the identity
flag, the model and the device type. -/
def scan_step_snmp (d : DeviceInfoRec) (inp : ScanInput) : DeviceInfoRec :=
  match inp.snmp with
  | some si =>
      if is_konica_minolta (infodict_of_snmp si) then
        let m := extract_model (si.description.getD [])
        { d with is_km_device := true, model := m, device_type := determine_device_type m }
      else d
  | none => d

/-- Lines 146-151 of `_scan_device`: the HTTP branch marks accessibility
and may confirm identity from the content snippet. -/
def scan_step_http (d : DeviceInfoRec) (inp : ScanInput) : DeviceInfoRec :=
  match inp.http with
  | some hi =>
      let d1 := { d with http_accessible := true }
      if !d1.is_km_device && is_konica_minolta (infodict_of_http hi) then
        { d1 with is_km_device := true }
      else d1
  | none => d

/-- Lines 156-161 of `_scan_device`: the record updates applied when the
Fiery probe reports a controller.  The returned flag records the
`AttributeError` raised by `_determine_fiery_device_type` when the Fiery
model is `None`; the surrounding `try` of `_scan_device` catches it and
returns the record as built so far, skipping the password step. -/
def fiery_branch (d : DeviceInfoRec) (fi : FieryDetection) : DeviceInfoRec × Bool :=
  if fi.is_fiery then
    match determine_fiery_device_type fi.model with
    | .error _ =>
        ({ d with is_km_device := true, fiery_controller := true, model := fi.model }, true)
    | .ok dt =>
        ({ d with is_km_device := true, fiery_controller := true, model := fi.model,
                  device_type := some dt }, false)
  else (d, false)

/-- Lines 153-161 of `_scan_device`: the Fiery probe, guarded by
`not is_km_device and http_accessible`. -/
def scan_step_fiery (d : DeviceInfoRec) (inp : ScanInput) : DeviceInfoRec × Bool :=
  if !d.is_km_device && d.http_accessible then
    fiery_branch d (detect_fiery inp.fieryEps inp.fieryInfoModel)
  else (d, false)

/-- Lines 163-166 of `_scan_device`: password discovery for confirmed
devices.  (The subsequent capability inference touches no field a claim
reads.) -/
def scan_step_password (d : DeviceInfoRec) (inp : ScanInput) : DeviceInfoRec :=
  if d.is_km_device then
    { d with admin_password := discover_admin_password d.model inp.accepts }
  else d

/-- Embeds `NetworkDiscovery._scan_device` (discovery.py lines 114-176) as a
function of the address's probe responses: the pipeline of the four
steps, where a raised `AttributeError` in the Fiery step skips the
password step. -/
def scan_device (ip : List Nat) (inp : ScanInput) : DeviceInfoRec :=
  match scan_step_fiery (scan_step_http (scan_step_snmp (scan_step_init ip inp) inp) inp) inp with
  | (d, true) => d
  | (d, false) => scan_step_password d inp

/-- Whether `_scan_device` reaches the Fiery probe call (the guard at
discovery.py line 154). -/
def fiery_probe_invoked (ip : List Nat) (inp : ScanInput) : Bool :=
  let d := scan_step_http (scan_step_snmp (scan_step_init ip inp) inp) inp
  !d.is_km_device && d.http_accessible

/-- Embeds `NetworkDiscovery.quick_scan` (discovery.py lines 487-507): scan the
explicit target list and keep the records whose identity was confirmed. -/
def quick_scan (targets : List (List Nat × ScanInput)) : List DeviceInfoRec :=
  (targets.map (fun t => scan_device t.1 t.2)).filter (fun r => r.is_km_device)

/-- The address filter of `discover_network_range` (discovery.py lines
72-74): skip strings ending in `.0` or `.255`. -/
def ip_in_scan_range (ip : List Nat) : Bool :=
  !((str ".0").isSuffixOf ip) && !((str ".255").isSuffixOf ip)

/-- Embeds `NetworkDiscovery.discover_network_range` (discovery.py lines 58-88)
over an enumerated address range: the network/broadcast filter, the same
per-address scan, and the same confirmed-identity filter. -/
def discover_network_range (targets : List (List Nat × ScanInput)) : List DeviceInfoRec :=
  ((targets.filter (fun t => ip_in_scan_range t.1)).map
    (fun t => scan_device t.1 t.2)).filter (fun r => r.is_km_device)

/-- Embeds `DeviceStatus` (models/device.py lines 17-23). -/
inductive DeviceStatus where
  | online | offline | busy | error | maintenance
deriving DecidableEq, Repr

/-- The `Device` entity (models/device.py lines 38-68), restricted to the
fields the claims read.  `type` holds the enum's string value (pydantic
`use_enum_values`); `status` defaults to `offline`; `last_seen` is an
abstract timestamp.  Capability, firmware and port fields are untouched
by every claim and omitted. -/
structure Device where
  id : List Nat
  name : List Nat
  type : List Nat
  ip_address : List Nat
  status : DeviceStatus := .offline
  admin_password : Option (List Nat) := none
  last_seen : Option Nat := none
  error_message : Option (List Nat) := none
  toner_levels : Option (List (List Nat × Int)) := none
  paper_levels : Option (List (List Nat × Int)) := none
deriving DecidableEq, Repr

/-- The `device_info.get('model') or 'unknown'` coalescing of
`create_device_objects` (a `None` or empty model is falsy). -/
def coalesce_model (model : Option (List Nat)) : List Nat :=
  match model with
  | none => str "unknown"
  | some m => if m = [] then str "unknown" else m

/-- The deterministic device id of `create_device_objects` (discovery.py
lines 459-463): `km-` + lowercased safe model + `-` + the address with
dots replaced by dashes. -/
def device_id_of (model : Option (List Nat)) (ip : List Nat) : List Nat :=
  let m := coalesce_model model
  let model_safe := if m ≠ [] ∧ m ≠ str "unknown" then m else str "unknown"
  str "km-" ++ lowStr model_safe ++ str "-" ++ ip.map (fun c => if c = 46 then 45 else c)

/-- One iteration of `create_device_objects` (discovery.py lines
455-483) on a confirmed record: the deterministic id, the display name,
the `or DeviceType.C654E` type default, and the discovered credential;
`status` is never passed and keeps the model's `offline` default. -/
def device_of_record (r : DeviceInfoRec) : Device :=
  let model := coalesce_model r.model
  let device_id := device_id_of r.model r.ip_address
  let name :=
    if model ≠ [] ∧ model ≠ str "unknown" then str "Konica Minolta " ++ model
    else str "Konica Minolta Device"
  { id := device_id
    name := name
    type := (r.device_type.getD DeviceType.C654E).value
    ip_address := r.ip_address
    admin_password := r.admin_password }

/-- Embeds `NetworkDiscovery.create_device_objects` (discovery.py lines
451-485): one `Device` per confirmed record. -/
def create_device_objects (recs : List DeviceInfoRec) : List Device :=
  (recs.filter (fun r => r.is_km_device)).map device_of_record

/-- Association-list embedding of a Python `dict` (insertion-ordered,
unique keys): lookup of the first binding of a key. -/
def lookupA {α : Type} (k : List Nat) (m : List (List Nat × α)) : Option α :=
  (m.find? (fun p => p.1 = k)).map (fun p => p.2)

/-- Embeds `d[k] = v`: replace in place when the key is present, append
otherwise. -/
def dictSet {α : Type} (k : List Nat) (v : α) (m : List (List Nat × α)) :
    List (List Nat × α) :=
  if (lookupA k m).isSome then m.map (fun p => if p.1 = k then (k, v) else p)
  else m ++ [(k, v)]

/-- Embeds `d.pop(k)`: drop the key's bindings. -/
def dictPop {α : Type} (k : List Nat) (m : List (List Nat × α)) :
    List (List Nat × α) :=
  m.filter (fun p => p.1 ≠ k)

/-- An adapter instance: the variant selected (the class picked by the
factory) and a creation nonce distinguishing separately constructed
instances. -/
structure Adapter where
  kind : List Nat
  nonce : Nat
deriving DecidableEq, Repr

/-- The variant selection of `DeviceManager._get_device_adapter`
(device_manager.py lines 162-176), on the runtime string value of
`device.type` (the `==` against each enum member compares equal exactly
on the member's value); the `else` branch is the
`ValueError(f"Unsupported device type: ...")`. -/
def adapter_kind_of_type (t : List Nat) : Except (List Nat) (List Nat) :=
  if t = str "C654e" then .ok (str "KMC654eAdapter")
  else if t = str "C759" then .ok (str "KMC759Adapter")
  else if t = str "C754e" then .ok (str "KMC754eAdapter")
  else if t = str "2100" then .ok (str "KM2100Adapter")
  else .error (str "Unsupported device type: " ++ t)

/-- The mutable state of a `DeviceManager`: the device dict, the adapter
cache, and a counter supplying fresh adapter nonces. -/
structure ManagerState where
  devices : List (List Nat × Device) := []
  adapters : List (List Nat × Adapter) := []
  nextNonce : Nat := 0
deriving DecidableEq, Repr

/-- Embeds `DeviceManager._get_device_adapter` (device_manager.py lines
159-180): return the cached instance when present, otherwise construct
the variant for the device's type, cache it and return it; an
unsupported type raises `ValueError`. -/
def get_device_adapter (st : ManagerState) (d : Device) :
    Except (List Nat) (Adapter × ManagerState) :=
  match lookupA d.id st.adapters with
  | some a => .ok (a, st)
  | none =>
      match adapter_kind_of_type d.type with
      | .error e => .error e
      | .ok k =>
          let a : Adapter := { kind := k, nonce := st.nextNonce }
          .ok (a, { st with adapters := dictSet d.id a st.adapters,
                            nextNonce := st.nextNonce + 1 })

/-- Embeds `DeviceManager.remove_device` (device_manager.py lines 371-379):
pop the device and, when present, its cached adapter. -/
def remove_device (st : ManagerState) (device_id : List Nat) : ManagerState × Bool :=
  if (lookupA device_id st.devices).isSome then
    ({ st with devices := dictPop device_id st.devices,
               adapters := if (lookupA device_id st.adapters).isSome then
                             dictPop device_id st.adapters
                           else st.adapters }, true)
  else (st, false)

/-- Python truthiness of an `Optional[str]`: `None` and the empty string
are falsy. -/
def truthy : Option (List Nat) → Bool
  | none => false
  | some s => s ≠ []

/-- The merge loop of `DeviceManager._auto_discover_devices`
(device_manager.py lines 274-284, identical in
`_load_predefined_devices` lines 320-331): insert unseen ids; for an
existing id, backfill the credential only when the new one is truthy and
the existing one is not. -/
def merge_step (st : ManagerState) (d : Device) : ManagerState :=
  match lookupA d.id st.devices with
  | none => { st with devices := dictSet d.id d st.devices }
  | some existing =>
      if truthy d.admin_password && !truthy existing.admin_password then
        { st with devices :=
            dictSet d.id { existing with admin_password := d.admin_password } st.devices }
      else st

/-- The whole merge loop over the freshly created device list. -/
def merge_discovered (st : ManagerState) (ds : List Device) : ManagerState :=
  ds.foldl merge_step st

/-- The fields of the adapter's `get_status()` dict that
`refresh_device_status` would copy.  Every adapter variant returns a
plain `dict`, so these are dictionary KEYS, not object attributes. -/
structure StatusDict where
  toner_levels : Option (List (List Nat × Int)) := none
  paper_levels : Option (List (List Nat × Int)) := none
deriving DecidableEq, Repr

/-- Python `hasattr(status_info, ...)` for the two level keys: a `dict`
instance exposes its entries by subscription, not as attributes, so
`hasattr` on it is `False` regardless of the keys present — this is the
runtime semantics of device_manager.py lines 118-121 given that every
adapter's `get_status` returns a `dict`. -/
def hasattr_status (_s : StatusDict) (_attr : List Nat) : Bool := false

deriving instance DecidableEq for Except

/-- The environment one `refresh_device_status` call observes: the
connectivity-check outcome (`_check_device_connectivity` swallows its own
errors and returns a bool) and the adapter's `get_status` outcome, with a
raised exception carried as its `str(e)` text. -/
structure RefreshEnv where
  connectivity : Bool := false
  statusResult : Except (List Nat) StatusDict := .error []
deriving DecidableEq, Repr

/-- Embeds `DeviceStatusResponse` (models/device.py lines 87-108), restricted
to the fields the claims read. -/
structure StatusResponse where
  device_id : List Nat
  status : DeviceStatus
  toner_levels : Option (List (List Nat × Int)) := none
  paper_levels : Option (List (List Nat × Int)) := none
  has_errors : Bool
  error_messages : List (List Nat)
deriving DecidableEq, Repr

/-- Lines 136-144 of `refresh_device_status`: the response assembled from
the device after the update; `[device.error_message] if
device.error_message else []` drops a falsy (absent or empty) message. -/
def mk_status_response (d : Device) : StatusResponse :=
  { device_id := d.id
    status := d.status
    toner_levels := d.toner_levels
    paper_levels := d.paper_levels
    has_errors := d.status = DeviceStatus.error
    error_messages := if truthy d.error_message then [d.error_message.getD []] else [] }

/-- Embeds `DeviceManager.refresh_device_status` (device_manager.py lines
97-144) for a known device: adapter acquisition (which raises only for
an unsupported type), the connectivity check, and — only when reachable
— the adapter's status call; every exception inside the `try` lands in
the `error` branch.  Returns the updated device, the response, and
whether the adapter's status operation was invoked.  The function is
total: no exception escapes. -/
def refresh_device_status (d : Device) (now : Nat) (env : RefreshEnv) :
    Device × StatusResponse × Bool :=
  match adapter_kind_of_type d.type with
  | .error e =>
      let d1 := { d with status := .error, error_message := some e }
      (d1, mk_status_response d1, false)
  | .ok _ =>
      if env.connectivity then
        match env.statusResult with
        | .ok s =>
            let d1 := { d with
              status := .online, last_seen := some now, error_message := none,
              toner_levels := if hasattr_status s (str "toner_levels") then s.toner_levels
                              else d.toner_levels,
              paper_levels := if hasattr_status s (str "paper_levels") then s.paper_levels
                              else d.paper_levels }
            (d1, mk_status_response d1, true)
        | .error e =>
            let d1 := { d with status := .error, error_message := some e }
            (d1, mk_status_response d1, true)
      else
        let d1 := { d with status := .offline,
                           error_message := some (str "Device not reachable") }
        (d1, mk_status_response d1, false)

/-- Embeds `DeviceManager.refresh_all_devices` (device_manager.py lines 91-95):
one refresh per registered device, gathered with
`return_exceptions=True`; each coroutine reads and writes only its own
device, so the batch is the independent per-entry map of
`refresh_device_status` under each device's own environment. -/
def refresh_all_devices (devs : List (List Nat × Device))
    (envOf : List Nat → RefreshEnv) (now : Nat) : List (List Nat × Device) :=
  devs.map (fun p => (p.1, (refresh_device_status p.2 now (envOf p.1)).1))

/-- Statement helper: the text contains no identifier of the fixed
vendor list, case-insensitively. -/
def no_km_identifier (text : List Nat) : Bool :=
  KM_IDENTIFIERS.all (fun idt => !containsSub (upStr idt) (upStr text))

/-- Statement helper: an endpoint response body (when present) contains
no identifier of the fixed vendor list. -/
def resp_no_identifier : Option HttpResp → Bool
  | none => true
  | some r => no_km_identifier r.body

/-- Statement helper: none of an address's probe responses — the SNMP
description, the HTTP content snippet, and the bodies answered by the
five Fiery endpoints — contains a vendor identifier. -/
def scan_input_no_identifier (inp : ScanInput) : Bool :=
  (match inp.snmp with
   | some si => no_km_identifier (si.description.getD [])
   | none => true) &&
  (match inp.http with
   | some hi => no_km_identifier hi.content_snippet
   | none => true) &&
  resp_no_identifier inp.fieryEps.root &&
  resp_no_identifier inp.fieryEps.wsiRoot &&
  resp_no_identifier inp.fieryEps.statusEp &&
  resp_no_identifier inp.fieryEps.infoEp &&
  resp_no_identifier inp.fieryEps.commandEp

/-- Statement helper: the `/command` endpoint does not answer with an
accepted status (200/301/302) whose body contains the Fiery indicator
string `Command`, case-insensitively.  This is the indicator of
`detect_fiery` that lies outside `KM_IDENTIFIERS`; a response with any
other status is harmless whatever its body says, since `indicator_hit`
also demands the status. -/
def command_indicator_absent (inp : ScanInput) : Bool :=
  match inp.fieryEps.commandEp with
  | none => true
  | some r =>
      !((r.status == 200 || r.status == 301 || r.status == 302) &&
        containsSub (lowStr (str "Command")) (lowStr r.body))

/-- Statement helper: the SNMP probe confirmed vendor identity. -/
def snmp_confirmed (inp : ScanInput) : Bool :=
  match inp.snmp with
  | some si => is_konica_minolta (infodict_of_snmp si)
  | none => false

/-- Statement helper: the HTTP probe's content snippet confirmed vendor
identity. -/
def http_confirmed (inp : ScanInput) : Bool :=
  match inp.http with
  | some hi => is_konica_minolta (infodict_of_http hi)
  | none => false

/-- Scenario input of claim C9: HTTP answers with a body holding the
vendor identifier and the model substring `C654e`, SNMP is unreachable,
no credential candidate is accepted. -/
def inp_c9 : ScanInput :=
  { http := some { content_snippet := str "KONICA MINOLTA printer C654e console" } }

/-- The single device the C9 scenario is expected to produce. -/
def dev_c9 : Device :=
  { id := str "km-unknown-10-0-0-5"
    name := str "Konica Minolta Device"
    type := str "C654e"
    ip_address := str "10.0.0.5"
    admin_password := none }

/-- Counterexample input of claim C1: no probe response contains any
`KM_IDENTIFIERS` entry, but the `/command` endpoint answers 200 with a
body holding the Fiery indicator `Command`. -/
def inp_c1 : ScanInput :=
  { http := some { content_snippet := str "hello" }
    fieryEps := { commandEp := some { status := 200, body := str "Command" } } }

/-- Counterexample input of claim C6: SNMP is silent while the HTTP
content snippet itself confirms identity. -/
def inp_c6 : ScanInput :=
  { http := some { content_snippet := str "bizhub web console" } }

/-- A known device used in the refresh scenarios of claim C4. -/
def dev_c4 : Device :=
  { id := str "km-c654e-10-0-0-5"
    name := str "Konica Minolta C654e"
    type := str "C654e"
    ip_address := str "10.0.0.5" }

/-- Environment of the C4 failing input: the device is reachable and the
adapter's `get_status` returns a dict carrying a `toner_levels` key. -/
def env_c4_levels : RefreshEnv :=
  { connectivity := true
    statusResult := .ok { toner_levels := some [(str "black", 42)] } }

/-- Environment where the adapter's status call raises
`TimeoutException` with the shown text. -/
def env_c4_raise : RefreshEnv :=
  { connectivity := true
    statusResult := .error (str "Request timed out") }

/-- Environment where the connectivity check reports unreachable. -/
def env_c4_offline : RefreshEnv :=
  { connectivity := false }

/-- A record confirmed as a device, used as concrete witness input. -/
def rec_w : DeviceInfoRec :=
  { ip_address := str "10.0.0.7", is_km_device := true }

/-- A registry state holding `dev_c4`, used as concrete witness input. -/
def st_w : ManagerState :=
  { devices := [(dev_c4.id, dev_c4)] }

/-- Python substring containment agrees with list infixhood. -/
theorem containsSub_spec (n h : List Nat) : containsSub n h = true ↔ n <:+: h := by
  induction h with
  | nil => simp [containsSub]
  | cons c t ih => simp [containsSub, List.infix_cons_iff, ih]

theorem lowN_upN (n : Nat) : lowN (upN n) = lowN n := by
  simp only [upN, lowN]
  split_ifs <;> omega

theorem upN_lowN (n : Nat) : upN (lowN n) = upN n := by
  simp only [upN, lowN]
  split_ifs <;> omega

theorem upStr_lowStr (s : List Nat) : upStr (lowStr s) = upStr s := by
  unfold upStr lowStr
  rw [List.map_map]
  exact List.map_congr_left (fun a _ => upN_lowN a)

/-- Case-insensitive containment read at lower case implies the same
containment read at upper case. -/
theorem contains_up_of_low (a b : List Nat)
    (h : containsSub (lowStr a) (lowStr b) = true) :
    containsSub (upStr a) (upStr b) = true := by
  rw [containsSub_spec] at h ⊢
  have h2 : upStr (lowStr a) <:+: upStr (lowStr b) := by
    simpa [upStr] using List.IsInfix.map upN h
  rwa [upStr_lowStr, upStr_lowStr] at h2

/-- Containment of a concatenation yields containment of its left part. -/
theorem contains_of_contains_append (x y h : List Nat)
    (hc : containsSub (x ++ y) h = true) : containsSub x h = true := by
  rw [containsSub_spec] at hc ⊢
  exact ((List.prefix_append x y).isInfix).trans hc

/-- Claim C2 (counterexample): the description
`KONICA MINOLTA C654 Fiery X200` matches both the controller-specific
pattern `Fiery\s+([A-Z]+\d+)` (capturing `X200`) and the generic
vendor-name pattern (capturing `C654`), yet `_extract_model` returns the
generic capture `C654`, not the controller-derived `Fiery-X200`: the
generic vendor-name rule is tried before the general controller rule. -/
theorem generic_rule_beats_controller_rule :
    searchToks patFieryGeneral (str "KONICA MINOLTA C654 Fiery X200") = some (str "X200") ∧
    searchToks patKMGeneric (str "KONICA MINOLTA C654 Fiery X200") = some (str "C654") ∧
    extract_model (str "KONICA MINOLTA C654 Fiery X200") = some (str "C654") ∧
    extract_model (str "KONICA MINOLTA C654 Fiery X200") ≠ some (str "Fiery-" ++ str "X200") := by
  refine ⟨by decide, by decide, by decide, by decide⟩

theorem extract_go_ic418 (desc : List Nat) (ps : List (List Tok × Bool))
    (h : (extract_model_go desc ps).isSome = true)
    (hic : containsSub (str "IC-418") desc = true) :
    extract_model_go desc ps = some (str "C759") := by
  induction ps with
  | nil => simp [extract_model_go] at h
  | cons p rest ih =>
      obtain ⟨ts, f⟩ := p
      simp only [extract_model_go] at h ⊢
      cases hs : searchToks ts desc with
      | some m => simp [hs, hic]
      | none => simp only [hs] at h ⊢; exact ih h

theorem extract_go_e100 (desc : List Nat) (ps : List (List Tok × Bool))
    (h : (extract_model_go desc ps).isSome = true)
    (hic : containsSub (str "IC-418") desc = false)
    (he : containsSub (str "E100") desc = true)
    (hk : containsSub (str "60-55C-KM") desc = true) :
    extract_model_go desc ps = some (str "C754e") := by
  induction ps with
  | nil => simp [extract_model_go] at h
  | cons p rest ih =>
      obtain ⟨ts, f⟩ := p
      simp only [extract_model_go] at h ⊢
      cases hs : searchToks ts desc with
      | some m => simp [hs, hic, he, hk]
      | none => simp only [hs] at h ⊢; exact ih h

/-- Claim C2 (amended): whenever any pattern of `_extract_model` matches,
a description containing a translation-table controller code resolves to
the translated printer model — `IC-418` yields `C759`, and `E100`
together with `60-55C-KM` yields `C754e` — regardless of which pattern
matched first; the general controller pattern `Fiery\s+([A-Z]+\d+)`,
however, is ordered after the generic vendor-name pattern, so a text
matching both resolves to the vendor-name capture (see the
counterexample). -/
theorem translation_table_precedence (desc : List Nat)
    (h : (extract_model desc).isSome = true) :
    (containsSub (str "IC-418") desc = true → extract_model desc = some (str "C759")) ∧
    (containsSub (str "IC-418") desc = false →
     containsSub (str "E100") desc = true →
     containsSub (str "60-55C-KM") desc = true →
     extract_model desc = some (str "C754e")) := by
  constructor
  · intro hic
    exact extract_go_ic418 desc model_patterns h hic
  · intro hic he hk
    exact extract_go_e100 desc model_patterns h hic he hk

theorem translation_table_precedence_witness :
    extract_model (str "bizhub 100 with Fiery ES IC-418") = some (str "C759") :=
  (translation_table_precedence (str "bizhub 100 with Fiery ES IC-418") (by decide)).1
    (by decide)

/-- Claim C6 (counterexample): for an address where SNMP is silent (so it
did not confirm identity) and the HTTP probe succeeds with a body that
itself contains a vendor identifier, the Fiery probe is NOT run, refuting
"the probe runs exactly when the HTTP probe succeeded and the SNMP probe
did not already confirm vendor identity". -/
theorem fiery_probe_skipped_when_http_confirms :
    inp_c6.http.isSome = true ∧
    snmp_confirmed inp_c6 = false ∧
    fiery_probe_invoked (str "10.0.0.3") inp_c6 = false := by
  refine ⟨by decide, by decide, by decide⟩

/-- Claim C6 (amended): the Fiery probe is run exactly when the HTTP
probe succeeded and neither the SNMP probe nor the HTTP probe already
confirmed vendor identity. -/
theorem fiery_probe_guard (ip : List Nat) (inp : ScanInput) :
    fiery_probe_invoked ip inp =
      (inp.http.isSome && !(snmp_confirmed inp || http_confirmed inp)) := by
  unfold fiery_probe_invoked snmp_confirmed http_confirmed
  unfold scan_step_http scan_step_snmp scan_step_init
  cases hs : inp.snmp with
  | none =>
      cases hh : inp.http with
      | none => simp
      | some hi => by_cases hkm : is_konica_minolta (infodict_of_http hi) <;> simp [hkm]
  | some si =>
      by_cases hskm : is_konica_minolta (infodict_of_snmp si)
      · cases hh : inp.http with
        | none => simp [hskm]
        | some hi => simp [hskm]
      · cases hh : inp.http with
        | none => simp [hskm]
        | some hi => by_cases hkm : is_konica_minolta (infodict_of_http hi) <;> simp [hskm, hkm]

/-- Claim C9: a targeted scan of the single address `10.0.0.5` whose HTTP
body contains the vendor identifier and the model substring `C654e`,
with SNMP unreachable and no credential candidate accepted, yields
exactly one `Device`: its type is the `C654e` enum value, its credential
is absent, and its status still holds the model's `offline` default —
discovery passes no status, which only a later refresh sets. -/
theorem targeted_scan_c654e_scenario :
    inp_c9.http = some { content_snippet := str "KONICA MINOLTA printer C654e console" } ∧
    containsSub (str "KONICA MINOLTA") (str "KONICA MINOLTA printer C654e console") = true ∧
    containsSub (str "C654e") (str "KONICA MINOLTA printer C654e console") = true ∧
    inp_c9.snmp = none ∧
    quick_scan [(str "10.0.0.5", inp_c9)] =
      [scan_device (str "10.0.0.5") inp_c9] ∧
    create_device_objects (quick_scan [(str "10.0.0.5", inp_c9)]) = [dev_c9] ∧
    dev_c9.type = DeviceType.C654E.value ∧
    dev_c9.admin_password = none ∧
    dev_c9.status = DeviceStatus.offline := by
  refine ⟨by decide, by decide, by decide, by decide, by decide, by decide, by decide,
    by decide, by decide⟩

theorem is_km_false_of_no_identifier (dict : InfoDict)
    (hd : no_km_identifier dict.description = true)
    (hc : no_km_identifier dict.content_snippet = true) :
    is_konica_minolta dict = false := by
  simp only [no_km_identifier, List.all_eq_true, Bool.not_eq_true'] at hd hc
  simp only [is_konica_minolta, Bool.or_eq_false_iff, List.any_eq_false]
  exact ⟨fun idt hm => by simp [hd idt hm], fun idt hm => by simp [hc idt hm]⟩

theorem hit_false_of_no_id (r : Option HttpResp) (ind : List Nat)
    (hmem : ind ∈ KM_IDENTIFIERS) (h : resp_no_identifier r = true) :
    indicator_hit r ind = false := by
  cases r with
  | none => rfl
  | some resp =>
      simp only [resp_no_identifier, no_km_identifier, List.all_eq_true,
        Bool.not_eq_true'] at h
      have hup := h ind hmem
      have hlow : containsSub (lowStr ind) (lowStr resp.body) = false := by
        cases hb : containsSub (lowStr ind) (lowStr resp.body) with
        | false => rfl
        | true => exact absurd (contains_up_of_low _ _ hb) (by simp [hup])
      simp [indicator_hit, hlow]

theorem wsi_hit_false (r : Option HttpResp) (h : resp_no_identifier r = true) :
    indicator_hit r (str "Fiery Web Services") = false := by
  cases r with
  | none => rfl
  | some resp =>
      simp only [resp_no_identifier, no_km_identifier, List.all_eq_true,
        Bool.not_eq_true'] at h
      have hup := h (str "Fiery") (by decide)
      have hlow : containsSub (lowStr (str "Fiery Web Services")) (lowStr resp.body) = false := by
        cases hb : containsSub (lowStr (str "Fiery Web Services")) (lowStr resp.body) with
        | false => rfl
        | true =>
            rw [show lowStr (str "Fiery Web Services") =
                  lowStr (str "Fiery") ++ lowStr (str " Web Services") from by decide] at hb
            have hf := contains_of_contains_append _ _ _ hb
            exact absurd (contains_up_of_low _ _ hf) (by simp [hup])
      simp [indicator_hit, hlow]

theorem command_hit_false (r : Option HttpResp)
    (h : (match r with
          | none => true
          | some resp =>
              !((resp.status == 200 || resp.status == 301 || resp.status == 302) &&
                containsSub (lowStr (str "Command")) (lowStr resp.body))) = true) :
    indicator_hit r (str "Command") = false := by
  cases r with
  | none => rfl
  | some resp =>
      simp only [Bool.not_eq_true'] at h
      simpa [indicator_hit] using h

theorem detect_fiery_false_of_no_id (eps : FieryEndpoints)
    (hr : resp_no_identifier eps.root = true)
    (hw : resp_no_identifier eps.wsiRoot = true)
    (hs : resp_no_identifier eps.statusEp = true)
    (hi : resp_no_identifier eps.infoEp = true)
    (hc : (match eps.commandEp with
           | none => true
           | some resp =>
               !((resp.status == 200 || resp.status == 301 || resp.status == 302) &&
                 containsSub (lowStr (str "Command")) (lowStr resp.body))) = true) :
    detect_fiery_is_fiery eps = false := by
  unfold detect_fiery_is_fiery
  rw [hit_false_of_no_id _ _ (by decide) hr, wsi_hit_false _ hw,
    hit_false_of_no_id _ _ (by decide) hs, hit_false_of_no_id _ _ (by decide) hi,
    command_hit_false _ hc]
  rfl

theorem scan_step_snmp_no_id (d : DeviceInfoRec) (inp : ScanInput)
    (h : (match inp.snmp with
          | some si => no_km_identifier (si.description.getD [])
          | none => true) = true) :
    scan_step_snmp d inp = d := by
  cases hs : inp.snmp with
  | none => simp [scan_step_snmp, hs]
  | some si =>
      rw [hs] at h
      have hc : no_km_identifier (infodict_of_snmp si).content_snippet = true := by
        simp only [infodict_of_snmp]
        decide
      have := is_km_false_of_no_identifier (infodict_of_snmp si) h hc
      simp [scan_step_snmp, hs, this]

theorem scan_step_http_km (d : DeviceInfoRec) (inp : ScanInput)
    (h : (match inp.http with
          | some hi => no_km_identifier hi.content_snippet
          | none => true) = true) :
    (scan_step_http d inp).is_km_device = d.is_km_device := by
  cases hh : inp.http with
  | none => simp [scan_step_http, hh]
  | some hi =>
      rw [hh] at h
      have hd : no_km_identifier (infodict_of_http hi).description = true := by
        simp only [infodict_of_http]
        decide
      have := is_km_false_of_no_identifier (infodict_of_http hi) hd h
      simp [scan_step_http, hh, this]

theorem scan_step_http_ip (d : DeviceInfoRec) (inp : ScanInput) :
    (scan_step_http d inp).ip_address = d.ip_address := by
  cases hh : inp.http with
  | none => simp [scan_step_http, hh]
  | some hi => simp only [scan_step_http, hh]; split <;> rfl

theorem scan_step_snmp_ip (d : DeviceInfoRec) (inp : ScanInput) :
    (scan_step_snmp d inp).ip_address = d.ip_address := by
  cases hs : inp.snmp with
  | none => simp [scan_step_snmp, hs]
  | some si => simp only [scan_step_snmp, hs]; split <;> rfl

theorem fiery_branch_ip (d : DeviceInfoRec) (fi : FieryDetection) :
    (fiery_branch d fi).1.ip_address = d.ip_address := by
  unfold fiery_branch
  split
  · split <;> rfl
  · rfl

theorem scan_step_fiery_ip (d : DeviceInfoRec) (inp : ScanInput) :
    (scan_step_fiery d inp).1.ip_address = d.ip_address := by
  unfold scan_step_fiery
  split
  · exact fiery_branch_ip d _
  · rfl

theorem scan_step_password_ip (d : DeviceInfoRec) (inp : ScanInput) :
    (scan_step_password d inp).ip_address = d.ip_address := by
  unfold scan_step_password
  split <;> rfl

/-- Every scan record carries the scanned address. -/
theorem scan_device_ip (ip : List Nat) (inp : ScanInput) :
    (scan_device ip inp).ip_address = ip := by
  unfold scan_device
  have hbase : (scan_step_http (scan_step_snmp (scan_step_init ip inp) inp) inp).ip_address
      = ip := by
    rw [scan_step_http_ip, scan_step_snmp_ip]; rfl
  have hf := scan_step_fiery_ip (scan_step_http (scan_step_snmp (scan_step_init ip inp) inp) inp) inp
  cases hfr : scan_step_fiery (scan_step_http (scan_step_snmp (scan_step_init ip inp) inp) inp) inp with
  | mk d b =>
      rw [hfr] at hf
      have hd : d.ip_address = ip := hf.trans hbase
      cases b
      · simpa [scan_step_password_ip] using hd
      · simpa using hd

/-- Core of claim C1: an address none of whose probe responses holds a
vendor identifier, and whose `/command` body (if any) lacks the Fiery
indicator `Command`, is never flagged as a Konica Minolta device. -/
theorem scan_no_identifier_core (ip : List Nat) (inp : ScanInput)
    (h1 : scan_input_no_identifier inp = true)
    (h2 : command_indicator_absent inp = true) :
    (scan_device ip inp).is_km_device = false := by
  simp only [scan_input_no_identifier, Bool.and_eq_true] at h1
  obtain ⟨⟨⟨⟨⟨⟨hsn, hht⟩, hr⟩, hw⟩, hs⟩, hi⟩, hc⟩ := h1
  unfold command_indicator_absent at h2
  unfold scan_device
  rw [scan_step_snmp_no_id _ _ hsn]
  have hkm : (scan_step_http (scan_step_init ip inp) inp).is_km_device = false := by
    rw [scan_step_http_km _ _ hht]; rfl
  have hfiery : scan_step_fiery (scan_step_http (scan_step_init ip inp) inp) inp =
      (scan_step_http (scan_step_init ip inp) inp, false) := by
    unfold scan_step_fiery
    have hdet := detect_fiery_false_of_no_id inp.fieryEps hr hw hs hi h2
    split
    · simp [fiery_branch, detect_fiery, hdet]
    · rfl
  rw [hfiery]
  simp only [scan_step_password, hkm]
  exact hkm

/-- Claim C1 (amended): for every scanned address whose probe responses
(SNMP description, HTTP content snippet, Fiery endpoint bodies) contain
no vendor identifier from the fixed identifier list AND whose `/command`
endpoint body, when it answers 200/301/302, does not contain the Fiery
indicator `Command`, the record has `is_km_device` false, the address is
absent from the lists returned by `quick_scan` and
`discover_network_range`, and `create_device_objects` produces no
`Device` for it.  (The `Command` carve-out is forced by the
counterexample below.) -/
theorem no_identifier_no_device (targets : List (List Nat × ScanInput)) (ip : List Nat)
    (h : ∀ t ∈ targets, t.1 = ip →
          scan_input_no_identifier t.2 = true ∧ command_indicator_absent t.2 = true) :
    (∀ t ∈ targets, t.1 = ip → (scan_device t.1 t.2).is_km_device = false) ∧
    (∀ r ∈ quick_scan targets, r.ip_address ≠ ip) ∧
    (∀ r ∈ discover_network_range targets, r.ip_address ≠ ip) ∧
    (∀ d ∈ create_device_objects (quick_scan targets), d.ip_address ≠ ip) := by
  have core : ∀ t ∈ targets, t.1 = ip → (scan_device t.1 t.2).is_km_device = false :=
    fun t ht heq => scan_no_identifier_core t.1 t.2 (h t ht heq).1 (h t ht heq).2
  have hqs : ∀ r ∈ quick_scan targets, r.ip_address ≠ ip := by
    intro r hr hip
    unfold quick_scan at hr
    obtain ⟨hmem, hkm⟩ := List.mem_filter.mp hr
    obtain ⟨t, ht, hteq⟩ := List.mem_map.mp hmem
    have hipt : t.1 = ip := by rw [← hip, ← hteq, scan_device_ip]
    have := core t ht hipt
    rw [hteq] at this
    simp [this] at hkm
  refine ⟨core, hqs, ?_, ?_⟩
  · intro r hr hip
    unfold discover_network_range at hr
    obtain ⟨hmem, hkm⟩ := List.mem_filter.mp hr
    obtain ⟨t, ht, hteq⟩ := List.mem_map.mp hmem
    have ht' : t ∈ targets := (List.mem_filter.mp ht).1
    have hipt : t.1 = ip := by rw [← hip, ← hteq, scan_device_ip]
    have := core t ht' hipt
    rw [hteq] at this
    simp [this] at hkm
  · intro d hd hip
    unfold create_device_objects at hd
    obtain ⟨r, hrmem, hreq⟩ := List.mem_map.mp hd
    have hr : r ∈ quick_scan targets := (List.mem_filter.mp hrmem).1
    have : d.ip_address = r.ip_address := by rw [← hreq]; rfl
    exact hqs r hr (by rw [← this, hip])

theorem no_identifier_no_device_witness :
    (∀ t ∈ [((str "10.0.0.7"), ({} : ScanInput))], t.1 = str "10.0.0.7" →
      scan_input_no_identifier t.2 = true ∧ command_indicator_absent t.2 = true) ∧
    (∀ r ∈ quick_scan [(str "10.0.0.7", ({} : ScanInput))], r.ip_address ≠ str "10.0.0.7") :=
  ⟨by decide, (no_identifier_no_device [(str "10.0.0.7", {})] (str "10.0.0.7")
    (by decide)).2.1⟩

/-- Claim C1 (counterexample): an address whose SNMP description, HTTP
content snippet and Fiery endpoint bodies all lack every entry of the
fixed identifier list is nonetheless flagged as a device — its
`/command` endpoint answers 200 with a body holding the Fiery indicator
`Command`, which lies outside `KM_IDENTIFIERS` — and it appears in the
`quick_scan` result and yields a `Device`. -/
theorem command_body_creates_device :
    scan_input_no_identifier inp_c1 = true ∧
    (scan_device (str "10.0.0.9") inp_c1).is_km_device = true ∧
    quick_scan [(str "10.0.0.9", inp_c1)] = [scan_device (str "10.0.0.9") inp_c1] ∧
    (create_device_objects (quick_scan [(str "10.0.0.9", inp_c1)])).length = 1 := by
  refine ⟨by decide, by decide, by decide, by decide⟩

theorem lookupA_cons {α : Type} (k : List Nat) (p : List Nat × α) (m : List (List Nat × α)) :
    lookupA k (p :: m) = if p.1 = k then some p.2 else lookupA k m := by
  by_cases h : p.1 = k <;> simp [lookupA, List.find?_cons, h]

theorem lookupA_append_single {α : Type} (k k0 : List Nat) (v : α)
    (m : List (List Nat × α)) (h : lookupA k0 m = none) :
    lookupA k (m ++ [(k0, v)]) = if k0 = k then some v else lookupA k m := by
  induction m with
  | nil => by_cases hk : k0 = k <;> simp [lookupA, List.find?_cons, hk]
  | cons p m ih =>
      rw [lookupA_cons] at h
      by_cases hp : p.1 = k0
      · simp [hp] at h
      · rw [List.cons_append, lookupA_cons, lookupA_cons]
        by_cases hpk : p.1 = k
        · have hne : k0 ≠ k := fun he => hp (by rw [hpk, ← he])
          simp [hpk, hne]
        · simp only [hpk, if_false]
          exact ih (by by_cases hx : p.1 = k0 <;> simp_all [lookupA_cons])

theorem lookupA_map_replace {α : Type} (k k0 : List Nat) (v w : α)
    (m : List (List Nat × α)) (h : lookupA k0 m = some w) :
    lookupA k (m.map (fun p => if p.1 = k0 then (k0, v) else p)) =
      if k0 = k then some v else lookupA k m := by
  induction m with
  | nil => simp [lookupA] at h
  | cons p m ih =>
      rw [lookupA_cons] at h
      by_cases hp : p.1 = k0
      · rw [List.map_cons, if_pos hp, lookupA_cons, lookupA_cons]
        by_cases hk : k0 = k
        · simp [hk]
        · simp only [hk, if_false, if_neg hk]
          rw [if_neg (by rw [hp]; exact hk)]
          -- the remaining replaced entries all carry key `k0 ≠ k`
          clear h ih hp
          induction m with
          | nil => rfl
          | cons q m ihq =>
              rw [List.map_cons, lookupA_cons, lookupA_cons]
              by_cases hq : q.1 = k0
              · rw [if_pos hq]
                simp only [hk, if_false]
                rw [if_neg (by rw [hq]; exact hk)]
                exact ihq
              · rw [if_neg hq]
                by_cases hqk : q.1 = k
                · simp [hqk]
                · simp only [hqk, if_false]
                  exact ihq
      · rw [if_neg hp] at h
        rw [List.map_cons, if_neg hp, lookupA_cons, lookupA_cons]
        by_cases hpk : p.1 = k
        · have hne : k0 ≠ k := fun he => hp (by rw [hpk, ← he])
          simp [hpk, hne]
        · simp only [hpk, if_false]
          exact ih h

theorem lookupA_dictSet {α : Type} (k k0 : List Nat) (v : α) (m : List (List Nat × α)) :
    lookupA k (dictSet k0 v m) = if k0 = k then some v else lookupA k m := by
  unfold dictSet
  cases h : lookupA k0 m with
  | none => simp only [h, Option.isSome_none, Bool.false_eq_true, if_false]
            exact lookupA_append_single k k0 v m h
  | some w => simp only [h, Option.isSome_some, if_true]
              exact lookupA_map_replace k k0 v w m h

theorem lookupA_dictPop {α : Type} (k k0 : List Nat) (m : List (List Nat × α)) :
    lookupA k (dictPop k0 m) = if k0 = k then none else lookupA k m := by
  induction m with
  | nil => by_cases hk : k0 = k <;> simp [dictPop, lookupA, hk]
  | cons p m ih =>
      unfold dictPop at ih ⊢
      by_cases hp : p.1 = k0
      · rw [List.filter_cons_of_neg (by simp [hp])]
        rw [ih, lookupA_cons]
        by_cases hk : k0 = k
        · simp [hk]
        · simp only [hk, if_false]
          rw [if_neg (by rw [hp]; exact hk)]
      · rw [List.filter_cons_of_pos (by simp [hp])]
        rw [lookupA_cons, lookupA_cons]
        by_cases hpk : p.1 = k
        · by_cases hk : k0 = k
          · exact absurd (hk.trans hpk.symm) (fun hx => hp hx.symm)
          · simp [hpk, hk]
        · simp only [hpk, if_false]
          exact ih

theorem lookupA_mem {α : Type} (k : List Nat) (v : α) (m : List (List Nat × α))
    (h : lookupA k m = some v) : (k, v) ∈ m := by
  induction m with
  | nil => simp [lookupA] at h
  | cons p m ih =>
      rw [lookupA_cons] at h
      by_cases hp : p.1 = k
      · rw [if_pos hp] at h
        have : p = (k, v) := by
          obtain ⟨p1, p2⟩ := p
          simp_all
        simp [this]
      · rw [if_neg hp] at h
        exact List.mem_cons_of_mem p (ih h)

theorem merge_step_eq_new (st : ManagerState) (d : Device)
    (h : lookupA d.id st.devices = none) :
    merge_step st d = { st with devices := dictSet d.id d st.devices } := by
  unfold merge_step
  rw [h]

theorem merge_step_eq_seen (st : ManagerState) (d : Device) (ex : Device)
    (h : lookupA d.id st.devices = some ex) :
    merge_step st d =
      if truthy d.admin_password && !truthy ex.admin_password then
        { st with devices :=
            dictSet d.id { ex with admin_password := d.admin_password } st.devices }
      else st := by
  unfold merge_step
  rw [h]

theorem merge_step_isSome (st : ManagerState) (d : Device) (k : List Nat) :
    (lookupA k (merge_step st d).devices).isSome =
      ((lookupA k st.devices).isSome || d.id = k) := by
  cases h : lookupA d.id st.devices with
  | none =>
      rw [merge_step_eq_new st d h]
      simp only
      rw [lookupA_dictSet]
      by_cases hk : d.id = k
      · simp [hk]
      · simp [hk]
  | some ex =>
      rw [merge_step_eq_seen st d ex h]
      split
      · simp only
        rw [lookupA_dictSet]
        by_cases hk : d.id = k
        · rw [← hk] at *
          simp [h]
        · simp [hk]
      · by_cases hk : d.id = k
        · rw [← hk, h]; simp
        · simp [hk]

theorem merge_isSome (ds : List Device) : ∀ (st : ManagerState) (k : List Nat),
    (lookupA k (merge_discovered st ds).devices).isSome =
      ((lookupA k st.devices).isSome || (ds.map (fun d => d.id)).contains k) := by
  induction ds with
  | nil => intro st k; simp [merge_discovered]
  | cons d ds ih =>
      intro st k
      have hstep : merge_discovered st (d :: ds) = merge_discovered (merge_step st d) ds := rfl
      rw [hstep, ih, merge_step_isSome]
      by_cases hdk : d.id = k
      · cases hsome : (lookupA k st.devices).isSome <;> simp [List.contains_cons, hdk]
      · cases hsome : (lookupA k st.devices).isSome <;>
          simp [List.contains_cons, hdk, Ne.symm hdk]

/-- How one merge step can change a device already present: either it is
untouched, or only its absent/empty credential is backfilled with a
non-empty one. -/
def cred_refines (old new : Device) : Prop :=
  new = old ∨
  (truthy old.admin_password = false ∧ truthy new.admin_password = true ∧
   new = { old with admin_password := new.admin_password })

theorem cred_refines_trans (a b c : Device)
    (h1 : cred_refines a b) (h2 : cred_refines b c) : cred_refines a c := by
  rcases h1 with rfl | ⟨hf, ht, hb⟩
  · exact h2
  · rcases h2 with rfl | ⟨hf2, ht2, hc⟩
    · exact Or.inr ⟨hf, ht, hb⟩
    · exact absurd ht (by simp [hf2])

theorem merge_step_cred (st : ManagerState) (d : Device) (k : List Nat) (old : Device)
    (h : lookupA k st.devices = some old) :
    ∃ mid, lookupA k (merge_step st d).devices = some mid ∧ cred_refines old mid := by
  cases hd : lookupA d.id st.devices with
  | none =>
      refine ⟨old, ?_, Or.inl rfl⟩
      rw [merge_step_eq_new st d hd]
      simp only
      rw [lookupA_dictSet]
      by_cases hk : d.id = k
      · rw [hk] at hd; rw [hd] at h; exact absurd h (by simp)
      · simp [hk, h]
  | some ex =>
      rw [merge_step_eq_seen st d ex hd]
      by_cases hcond : (truthy d.admin_password && !truthy ex.admin_password) = true
      · rw [if_pos hcond]
        by_cases hk : d.id = k
        · refine ⟨{ ex with admin_password := d.admin_password }, ?_, ?_⟩
          · simp only
            rw [lookupA_dictSet, if_pos hk]
          · have hex : ex = old := by rw [hk] at hd; rw [hd] at h; exact Option.some.inj h
            subst hex
            simp only [Bool.and_eq_true, Bool.not_eq_true'] at hcond
            exact Or.inr ⟨hcond.2, hcond.1, rfl⟩
        · refine ⟨old, ?_, Or.inl rfl⟩
          simp only
          rw [lookupA_dictSet, if_neg hk]
          exact h
      · rw [if_neg hcond]
        exact ⟨old, h, Or.inl rfl⟩

theorem merge_cred (ds : List Device) : ∀ (st : ManagerState) (k : List Nat) (old : Device),
    lookupA k st.devices = some old →
    ∀ new, lookupA k (merge_discovered st ds).devices = some new →
    cred_refines old new := by
  induction ds with
  | nil =>
      intro st k old hold new hnew
      have : merge_discovered st [] = st := rfl
      rw [this, hold] at hnew
      exact Or.inl (Option.some.inj hnew).symm
  | cons d ds ih =>
      intro st k old hold new hnew
      obtain ⟨mid, hmid, hcr⟩ := merge_step_cred st d k old hold
      have hstep : merge_discovered st (d :: ds) = merge_discovered (merge_step st d) ds := rfl
      rw [hstep] at hnew
      exact cred_refines_trans old mid new hcr (ih (merge_step st d) k mid hmid new hnew)

/-- Claim C3: rediscovery is idempotent on the set of device identifiers
— merging the same freshly discovered device list a second time adds no
key — every created device's identifier is the fixed deterministic
function of its model and address, and the merge backfills a credential
only when the stored one is absent (Python-falsy: `None` or empty) and
the new one non-empty; a stored non-empty credential is never replaced. -/
theorem rediscovery_idempotent_credentials (st : ManagerState) (ds : List Device) :
    (∀ k, (lookupA k (merge_discovered (merge_discovered st ds) ds).devices).isSome
          = (lookupA k (merge_discovered st ds).devices).isSome) ∧
    (∀ r : DeviceInfoRec, (device_of_record r).id = device_id_of r.model r.ip_address) ∧
    (∀ k old new, lookupA k st.devices = some old →
       lookupA k (merge_discovered st ds).devices = some new →
       (truthy old.admin_password = true → new.admin_password = old.admin_password) ∧
       (new.admin_password ≠ old.admin_password →
          truthy old.admin_password = false ∧ truthy new.admin_password = true)) := by
  refine ⟨?_, fun r => rfl, ?_⟩
  · intro k
    rw [merge_isSome, merge_isSome]
    cases (lookupA k st.devices).isSome <;>
      cases hc : (ds.map (fun d => d.id)).contains k <;> simp
  · intro k old new hold hnew
    have hcr := merge_cred ds st k old hold new hnew
    rcases hcr with rfl | ⟨hf, ht, hb⟩
    · exact ⟨fun _ => rfl, fun hne => absurd rfl hne⟩
    · refine ⟨fun htr => absurd htr (by simp [hf]), fun _ => ⟨hf, ht⟩⟩

theorem rediscovery_idempotent_credentials_witness :
    lookupA dev_c4.id st_w.devices = some dev_c4 ∧
    lookupA dev_c4.id
      (merge_discovered st_w [{ dev_c4 with admin_password := some (str "12345678") }]).devices
      = some { dev_c4 with admin_password := some (str "12345678") } ∧
    truthy dev_c4.admin_password = false ∧
    truthy (some (str "12345678")) = true :=
  ⟨by decide, by decide,
   ((rediscovery_idempotent_credentials st_w
       [{ dev_c4 with admin_password := some (str "12345678") }]).2.2
     dev_c4.id dev_c4 { dev_c4 with admin_password := some (str "12345678") }
     (by decide) (by decide)).2 (by decide)⟩

theorem try_passwords_find (accepts : List Nat → Bool) (l : List (List Nat)) :
    (try_passwords accepts l).1 = l.find? accepts := by
  induction l with
  | nil => rfl
  | cons p ps ih =>
      by_cases h : accepts p = true
      · simp [try_passwords, h, List.find?_cons_of_pos _ h]
      · have hf : accepts p = false := by simpa using h
        simp [try_passwords, hf, List.find?_cons_of_neg _ h, ih]

theorem try_passwords_all_fail (accepts : List Nat → Bool) (l : List (List Nat))
    (h : ∀ p ∈ l, accepts p = false) :
    (try_passwords accepts l).2 = l.length := by
  induction l with
  | nil => rfl
  | cons p ps ih =>
      have hp : accepts p = false := h p (List.mem_cons_self p ps)
      simp only [try_passwords, hp, Bool.false_eq_true, if_false, List.length_cons]
      rw [ih (fun q hq => h q (List.mem_cons_of_mem p hq))]

/-- Claim C5: credential discovery walks the candidate list — the
model-specific candidates first, then the defaults, de-duplicated
preserving first-seen order, as `password_candidates` builds it — stops
at the first accepted candidate and returns it (the result is
`find?` over that list); when the first two candidates are rejected and
the third accepted, exactly three attempts are made; when every
candidate fails it returns `none` (no exception) after trying the whole
list. -/
theorem credential_probe_order (model : Option (List Nat)) (accepts : List Nat → Bool) :
    (discover_admin_password model accepts = (password_candidates model).find? accepts) ∧
    ((password_candidates model).find? accepts = none →
       discover_admin_password model accepts = none ∧
       (try_passwords accepts (password_candidates model)).2 =
         (password_candidates model).length) ∧
    (∀ c0 c1 c2 rest, password_candidates model = c0 :: c1 :: c2 :: rest →
       accepts c0 = false → accepts c1 = false → accepts c2 = true →
       discover_admin_password model accepts = some c2 ∧
       (try_passwords accepts (password_candidates model)).2 = 3) := by
  refine ⟨try_passwords_find accepts _, ?_, ?_⟩
  · intro h
    constructor
    · rw [discover_admin_password, try_passwords_find, h]
    · exact try_passwords_all_fail accepts _ (by simpa [List.find?_eq_none] using h)
  · intro c0 c1 c2 rest heq h0 h1 h2
    constructor
    · rw [discover_admin_password, heq]
      simp [try_passwords, h0, h1, h2]
    · rw [heq]
      simp [try_passwords, h0, h1, h2]

theorem credential_probe_order_witness :
    password_candidates none =
      [str "12345678", str "1234567812345678", str "admin", str ""] ∧
    discover_admin_password none (fun p => p == str "admin") = some (str "admin") ∧
    (try_passwords (fun p => p == str "admin") (password_candidates none)).2 = 3 := by
  refine ⟨by decide, ?_, ?_⟩
  · exact ((credential_probe_order none (fun p => p == str "admin")).2.2
      (str "12345678") (str "1234567812345678") (str "admin") [str ""]
      (by decide) (by decide) (by decide) (by decide)).1
  · exact ((credential_probe_order none (fun p => p == str "admin")).2.2
      (str "12345678") (str "1234567812345678") (str "admin") [str ""]
      (by decide) (by decide) (by decide) (by decide)).2

/-- Claim C7: `refresh_all_devices` completes for every device and each
entry of its result is the refresh of that device alone, under that
device's own environment — so an exception raised inside one device's
refresh (an `error` outcome in its environment) cannot change any other
entry, and the batch itself raises nothing (`gather` collects
exceptions; the function is total): two environments agreeing on a
device's id give that device identical results whatever they do
elsewhere. -/
theorem refresh_all_independent (devs : List (List Nat × Device))
    (envOf envB : List Nat → RefreshEnv) (now i : Nat) :
    (refresh_all_devices devs envOf now).length = devs.length ∧
    (refresh_all_devices devs envOf now)[i]? =
      (devs[i]?).map (fun p => (p.1, (refresh_device_status p.2 now (envOf p.1)).1)) ∧
    (∀ p, devs[i]? = some p → envOf p.1 = envB p.1 →
       (refresh_all_devices devs envOf now)[i]? =
         (refresh_all_devices devs envB now)[i]?) := by
  refine ⟨by simp [refresh_all_devices], by simp [refresh_all_devices], ?_⟩
  intro p hp heq
  simp [refresh_all_devices, hp, heq]

theorem refresh_all_independent_witness :
    (refresh_all_devices [(dev_c4.id, dev_c4)] (fun _ => env_c4_raise) 5)[0]? =
      (refresh_all_devices [(dev_c4.id, dev_c4)]
        (fun k => if k = dev_c4.id then env_c4_raise else env_c4_offline) 5)[0]? :=
  (refresh_all_independent [(dev_c4.id, dev_c4)] (fun _ => env_c4_raise)
      (fun k => if k = dev_c4.id then env_c4_raise else env_c4_offline) 5 0).2.2
    (dev_c4.id, dev_c4) rfl (by simp)

/-- Claim C10: every `Device` built by `create_device_objects` carries
one of the four enum values as its type (`C654e` when none was inferred),
so the adapter factory's unsupported-type `ValueError` branch is
unreachable for it and an adapter kind is always selected. -/
theorem created_device_type_supported (recs : List DeviceInfoRec) :
    ∀ d ∈ create_device_objects recs,
      (∃ t : DeviceType, d.type = t.value) ∧
      ∃ kk, adapter_kind_of_type d.type = Except.ok kk := by
  intro d hd
  unfold create_device_objects at hd
  obtain ⟨r, hr, rfl⟩ := List.mem_map.mp hd
  rw [show (device_of_record r).type = (r.device_type.getD DeviceType.C654E).value from rfl]
  cases r.device_type.getD DeviceType.C654E with
  | C654E => exact ⟨⟨DeviceType.C654E, rfl⟩, str "KMC654eAdapter", by decide⟩
  | C759 => exact ⟨⟨DeviceType.C759, rfl⟩, str "KMC759Adapter", by decide⟩
  | C754E => exact ⟨⟨DeviceType.C754E, rfl⟩, str "KMC754eAdapter", by decide⟩
  | KM2100 => exact ⟨⟨DeviceType.KM2100, rfl⟩, str "KM2100Adapter", by decide⟩

theorem created_device_type_supported_witness :
    (∃ t : DeviceType, (device_of_record rec_w).type = t.value) ∧
    ∃ kk, adapter_kind_of_type (device_of_record rec_w).type = Except.ok kk :=
  created_device_type_supported [rec_w] (device_of_record rec_w) (by decide)

/-- Claim C4 (code bug, evaluated at the failing input): for a known
reachable device, `refresh_device_status` is total — unreachability
yields `offline` without invoking the adapter, an adapter exception
yields `error` with the exception text as non-empty error message, and
success yields `online` with updated `last_seen` and a cleared error —
BUT the toner/paper levels do NOT update from the adapter's report: the
report is a plain dict, `hasattr` on it is `False`, so the device's
levels stay unchanged even though the report carries a `toner_levels`
entry. -/
theorem refresh_outcomes_levels_never_update :
    (refresh_device_status dev_c4 100 env_c4_levels).1.status = DeviceStatus.online ∧
    (refresh_device_status dev_c4 100 env_c4_levels).1.last_seen = some 100 ∧
    (refresh_device_status dev_c4 100 env_c4_levels).1.error_message = none ∧
    (refresh_device_status dev_c4 100 env_c4_levels).2.2 = true ∧
    env_c4_levels.statusResult =
      Except.ok { toner_levels := some [(str "black", 42)] } ∧
    (refresh_device_status dev_c4 100 env_c4_levels).1.toner_levels = none ∧
    (refresh_device_status dev_c4 100 env_c4_raise).1.status = DeviceStatus.error ∧
    (refresh_device_status dev_c4 100 env_c4_raise).1.error_message =
      some (str "Request timed out") ∧
    str "Request timed out" ≠ [] ∧
    (refresh_device_status dev_c4 100 env_c4_raise).2.1.error_messages =
      [str "Request timed out"] ∧
    (refresh_device_status dev_c4 100 env_c4_raise).2.2 = true ∧
    (refresh_device_status dev_c4 100 env_c4_offline).1.status = DeviceStatus.offline ∧
    (refresh_device_status dev_c4 100 env_c4_offline).2.2 = false := by
  refine ⟨by decide, by decide, by decide, by decide, by decide, by decide, by decide,
    by decide, by decide, by decide, by decide, by decide, by decide⟩

theorem get_adapter_hit (st : ManagerState) (d : Device) (a0 : Adapter)
    (hc : lookupA d.id st.adapters = some a0) :
    get_device_adapter st d = .ok (a0, st) := by
  unfold get_device_adapter
  rw [hc]

theorem get_adapter_create (st : ManagerState) (d : Device) (k : List Nat)
    (hc : lookupA d.id st.adapters = none)
    (hk : adapter_kind_of_type d.type = .ok k) :
    get_device_adapter st d =
      .ok ({ kind := k, nonce := st.nextNonce },
           { st with adapters := dictSet d.id { kind := k, nonce := st.nextNonce } st.adapters,
                     nextNonce := st.nextNonce + 1 }) := by
  unfold get_device_adapter
  rw [hc, hk]

/-- Claim C8: a second adapter request for the same device id (no removal
in between) returns the identical cached instance and leaves the state —
and hence the number of constructed instances — unchanged; after
`remove_device` evicts the cache, a new request constructs and returns a
fresh instance (a different one), of the variant selected by the
device's type. -/
theorem adapter_cache_identity_and_eviction (st : ManagerState) (d : Device) (k : List Nat)
    (a : Adapter) (st2 : ManagerState)
    (hk : adapter_kind_of_type d.type = .ok k)
    (hdev : (lookupA d.id st.devices).isSome = true)
    (hinv : ∀ p ∈ st.adapters, p.2.nonce < st.nextNonce)
    (h1 : get_device_adapter st d = .ok (a, st2)) :
    get_device_adapter st2 d = .ok (a, st2) ∧
    ∃ b st3, get_device_adapter ((remove_device st2 d.id).1) d = .ok (b, st3) ∧
       b ≠ a ∧ b.kind = k := by
  cases hc : lookupA d.id st.adapters with
  | some a0 =>
      have hh := (get_adapter_hit st d a0 hc).symm.trans h1
      simp only [Except.ok.injEq, Prod.mk.injEq] at hh
      obtain ⟨ha, hst⟩ := hh
      subst ha
      subst hst
      have hnonce : a0.nonce < st.nextNonce := hinv (d.id, a0) (lookupA_mem _ _ _ hc)
      refine ⟨get_adapter_hit st d a0 hc, ?_⟩
      have hrm : (remove_device st d.id).1 =
          { st with devices := dictPop d.id st.devices,
                    adapters := dictPop d.id st.adapters } := by
        unfold remove_device
        rw [if_pos hdev]
        simp only
        rw [if_pos (by rw [hc]; rfl)]
      have hgone : lookupA d.id ((remove_device st d.id).1).adapters = none := by
        rw [hrm]
        simp only
        rw [lookupA_dictPop, if_pos rfl]
      refine ⟨{ kind := k, nonce := ((remove_device st d.id).1).nextNonce }, _,
        get_adapter_create _ d k hgone hk, ?_, rfl⟩
      have hn3 : ((remove_device st d.id).1).nextNonce = st.nextNonce := by rw [hrm]
      intro hba
      rw [← hba] at hnonce
      simp only [hn3] at hnonce
      exact Nat.lt_irrefl _ hnonce
  | none =>
      have hh := (get_adapter_create st d k hc hk).symm.trans h1
      simp only [Except.ok.injEq, Prod.mk.injEq] at hh
      obtain ⟨ha, hst⟩ := hh
      subst ha
      subst hst
      have hc2 : lookupA d.id
          (dictSet d.id { kind := k, nonce := st.nextNonce } st.adapters) =
          some { kind := k, nonce := st.nextNonce } := by
        rw [lookupA_dictSet, if_pos rfl]
      refine ⟨get_adapter_hit _ d _ hc2, ?_⟩
      have hrm : (remove_device
          { st with adapters := dictSet d.id { kind := k, nonce := st.nextNonce } st.adapters,
                    nextNonce := st.nextNonce + 1 } d.id).1 =
          { st with devices := dictPop d.id st.devices,
                    adapters := dictPop d.id
                      (dictSet d.id { kind := k, nonce := st.nextNonce } st.adapters),
                    nextNonce := st.nextNonce + 1 } := by
        unfold remove_device
        rw [if_pos hdev]
        simp only
        rw [if_pos (by rw [hc2]; rfl)]
      have hgone : lookupA d.id ((remove_device
          { st with adapters := dictSet d.id { kind := k, nonce := st.nextNonce } st.adapters,
                    nextNonce := st.nextNonce + 1 } d.id).1).adapters = none := by
        rw [hrm]
        simp only
        rw [lookupA_dictPop, if_pos rfl]
      refine ⟨_, _, get_adapter_create _ d k hgone hk, ?_, rfl⟩
      have hn3 : ((remove_device
          { st with adapters := dictSet d.id { kind := k, nonce := st.nextNonce } st.adapters,
                    nextNonce := st.nextNonce + 1 } d.id).1).nextNonce = st.nextNonce + 1 := by
        rw [hrm]
      intro hba
      have := congrArg Adapter.nonce hba
      simp only [hn3] at this
      exact Nat.succ_ne_self _ this

theorem adapter_cache_identity_and_eviction_witness :
    get_device_adapter
      { devices := st_w.devices,
        adapters := [(dev_c4.id, { kind := str "KMC654eAdapter", nonce := 0 })],
        nextNonce := 1 } dev_c4 =
      .ok ({ kind := str "KMC654eAdapter", nonce := 0 },
        { devices := st_w.devices,
          adapters := [(dev_c4.id, { kind := str "KMC654eAdapter", nonce := 0 })],
          nextNonce := 1 }) ∧
    ∃ b st3, get_device_adapter
        ((remove_device
          { devices := st_w.devices,
            adapters := [(dev_c4.id, { kind := str "KMC654eAdapter", nonce := 0 })],
            nextNonce := 1 } dev_c4.id).1) dev_c4 = .ok (b, st3) ∧
      b ≠ { kind := str "KMC654eAdapter", nonce := 0 } ∧
      b.kind = str "KMC654eAdapter" :=
  adapter_cache_identity_and_eviction st_w dev_c4 (str "KMC654eAdapter")
    { kind := str "KMC654eAdapter", nonce := 0 }
    { devices := st_w.devices,
      adapters := [(dev_c4.id, { kind := str "KMC654eAdapter", nonce := 0 })],
      nextNonce := 1 }
    (by decide) (by decide) (by simp [st_w]) (by decide)

end KM
